import Mathlib

/-!
Verification of the retry/remote-invocation core of the GitHub–Langflow
pull-request review bot (`src/app.js`).

The JavaScript source is shallowly embedded:
* JSON-like runtime values are `JVal`; thrown exceptions are modelled with
  `Except JsErr`; `fetch` responses are `Response` records carrying their
  status, status text, raw body and (when the body parses) parsed JSON body.
* `fetchWithRetry` (app.js:156-200) is a fuel-indexed loop returning a
  `RetryTrace` that records the returned/thrown outcome, the number of calls
  made to the attempt function, and the requested inter-attempt delays.
* `triggerLangflow` (app.js:808-1028) is `triggerCore` (the throwing
  pipeline) wrapped in the outer try/catch that classifies errors into
  user-facing categories.
* `handleReviewRequest` (app.js:381-658) and `handleMergeCheck`
  (app.js:661-805) are embedded as functions from a GitHub-collaborator
  behaviour (`GhCtx`) and a remote behaviour to the list of check-run
  updates and comments they perform.
-/

set_option maxRecDepth 4096

namespace GithubLangflowApp

/-- An apostrophe character, used inside embedded JS message strings. -/
def squote : String := (Char.ofNat 39).toString

/-! ## JavaScript runtime values -/

/-- A JavaScript runtime value as it occurs in the bot's data flow:
`undefined`, `null`, booleans, numbers, strings, arrays and objects. -/
inductive JVal where
  | undef : JVal
  | null : JVal
  | bool : Bool → JVal
  | num : Int → JVal
  | str : String → JVal
  | arr : List JVal → JVal
  | obj : List (String × JVal) → JVal

/-- JavaScript truthiness. -/
def JVal.truthy : JVal → Bool
  | .undef => false
  | .null => false
  | .bool b => b
  | .num n => n != 0
  | .str s => s != ""
  | .arr _ => true
  | .obj _ => true

mutual

/-- JavaScript `String(v)` conversion, as used by template literals. -/
def jsToString : JVal → String
  | .undef => "undefined"
  | .null => "null"
  | .bool true => "true"
  | .bool false => "false"
  | .num n => toString n
  | .str s => s
  | .arr xs => String.intercalate "," (jsToStringList xs)
  | .obj _ => "[object Object]"

/-- Elements of an array render with `null`/`undefined` as empty strings. -/
def jsToStringList : List JVal → List String
  | [] => []
  | .undef :: vs => "" :: jsToStringList vs
  | .null :: vs => "" :: jsToStringList vs
  | v :: vs => jsToString v :: jsToStringList vs

end

/-- A thrown JavaScript error: its `name` and `message`. -/
structure JsErr where
  name : String
  message : String
deriving Repr, DecidableEq

/-! ## Substring search (JS `String.prototype.includes`) -/

/-- The test `listSub pat l` is true when `pat` occurs as a contiguous sublist of `l`. -/
def listSub (pat : List Char) : List Char → Bool
  | [] => pat.isEmpty
  | c :: rest => List.isPrefixOf pat (c :: rest) || listSub pat rest

/-- JS `s.includes(pat)`. -/
def strContains (s pat : String) : Bool := listSub pat.data s.data

/-- JS `s.toLowerCase()` (ASCII letters, which is all the heuristics test). -/
def lowerAscii (s : String) : String := String.mk (s.data.map Char.toLower)

/-- JS `s.substring(0, n)`. -/
def jsSubstring (s : String) (n : Nat) : String := String.mk (s.data.take n)

/-! ## fetch responses and `fetchWithRetry` (app.js:156-200) -/

/-- A `fetch` response: HTTP status, status text, raw text body, and the
parse of the body as JSON (`none` when the body is not valid JSON, in which
case `response.json()` rejects). -/
structure Response where
  status : Nat
  statusText : String
  body : String
  jsonBody : Option JVal

/-- JS `response.ok`: status in the 2xx range. -/
def Response.ok (r : Response) : Bool := 200 ≤ r.status && r.status < 300

/-- The observable behaviour of one `fetchWithRetry` run: the value it
returns or the error it throws (`Except.ok none` models the `undefined`
falling out of the loop when `retries = 0`), the number of calls made to the
attempt function, and the delays requested between attempts. -/
structure RetryTrace where
  result : Except JsErr (Option Response)
  calls : Nat
  delays : List Nat

/-- The body of the `for (let attempt = 1; attempt <= retries; attempt++)`
loop of `fetchWithRetry`.  `fuel` counts the remaining loop iterations
(`retries + 1 - attempt` at every call from `fetchWithRetry`).
Per iteration (app.js:157-199): a 2xx response returns immediately; a 5xx
with attempts remaining sleeps `retryDelay` and retries; any other status
returns; a thrown attempt rethrows on the last attempt and otherwise sleeps
and retries. -/
def fetchLoop (fn : Nat → Except JsErr Response) (retryDelay retries : Nat) :
    Nat → Nat → RetryTrace
  | _, 0 => ⟨Except.ok none, 0, []⟩
  | attempt, fuel + 1 =>
    match fn attempt with
    | Except.ok response =>
      if response.ok then ⟨Except.ok (some response), 1, []⟩
      else if 500 ≤ response.status ∧ attempt < retries then
        let rest := fetchLoop fn retryDelay retries (attempt + 1) fuel
        ⟨rest.result, rest.calls + 1, retryDelay :: rest.delays⟩
      else ⟨Except.ok (some response), 1, []⟩
    | Except.error e =>
      if attempt = retries then ⟨Except.error e, 1, []⟩
      else
        let rest := fetchLoop fn retryDelay retries (attempt + 1) fuel
        ⟨rest.result, rest.calls + 1, retryDelay :: rest.delays⟩

/-- The function `fetchWithRetry(url, options, retries)` with the per-attempt outcomes
given by `fn` (attempt numbers start at 1) and the retry delay taken from
`CONFIG.langflow.retryDelay`. -/
def fetchWithRetry (fn : Nat → Except JsErr Response) (retryDelay retries : Nat) :
    RetryTrace :=
  fetchLoop fn retryDelay retries 1 retries

/-! ## JS property access and helpers used by the response probing -/

/-- JS property read `v.p`: throws a `TypeError` on `undefined`/`null`,
returns `length` on strings and arrays, looks up fields on objects, and
yields `undefined` everywhere else. -/
def getProp : JVal → String → Except JsErr JVal
  | JVal.undef, p =>
    Except.error ⟨"TypeError",
      "Cannot read properties of undefined (reading " ++ squote ++ p ++ squote ++ ")"⟩
  | JVal.null, p =>
    Except.error ⟨"TypeError",
      "Cannot read properties of null (reading " ++ squote ++ p ++ squote ++ ")"⟩
  | JVal.arr xs, p =>
    Except.ok (if p = "length" then JVal.num xs.length else JVal.undef)
  | JVal.str s, p =>
    Except.ok (if p = "length" then JVal.num s.length else JVal.undef)
  | JVal.obj fs, p =>
    Except.ok (match fs.find? (fun kv => kv.1 = p) with
      | some kv => kv.2
      | none => JVal.undef)
  | _, _ => Except.ok JVal.undef

/-- JS index read `v[i]`: array element, string character, object field named
by the index, `TypeError` on `undefined`/`null`, `undefined` otherwise. -/
def jsIndex : JVal → Nat → Except JsErr JVal
  | JVal.undef, _ => Except.error ⟨"TypeError", "Cannot read properties of undefined"⟩
  | JVal.null, _ => Except.error ⟨"TypeError", "Cannot read properties of null"⟩
  | JVal.arr xs, i => Except.ok ((xs.get? i).getD JVal.undef)
  | JVal.str s, i =>
    Except.ok (match s.data.get? i with
      | some c => JVal.str (String.singleton c)
      | none => JVal.undef)
  | JVal.obj fs, i =>
    Except.ok (match fs.find? (fun kv => kv.1 = toString i) with
      | some kv => kv.2
      | none => JVal.undef)
  | _, _ => Except.ok JVal.undef

/-- JS `v > 0` for the values produced by a `.length` read (`undefined`
compares false). -/
def jsGTzero : JVal → Bool
  | JVal.num n => 0 < n
  | _ => false

/-- JS `v > k` for a `.length` read against a numeric literal. -/
def jsNumGT : JVal → Int → Bool
  | JVal.num n, k => k < n
  | _, _ => false

/-- JS `message.includes(pat)`: substring test on strings, strict-equality
membership on arrays, `TypeError` otherwise. -/
def jsIncludesStr : JVal → String → Except JsErr Bool
  | JVal.str s, pat => Except.ok (strContains s pat)
  | JVal.arr xs, pat =>
    Except.ok (xs.any fun v => match v with
      | JVal.str t => t = pat
      | _ => false)
  | _, _ => Except.error ⟨"TypeError", "message.includes is not a function"⟩

/-- JS `message.length` for the values reaching the truncation check. -/
def jsLengthJ : JVal → JVal
  | JVal.str s => JVal.num s.length
  | JVal.arr xs => JVal.num xs.length
  | _ => JVal.undef

/-! ## `triggerLangflow` (app.js:808-1028) -/

/-- The record `CONFIG.langflow` (app.js:24-31): per-attempt timeout, attempt count and
inter-attempt delay, each overridable through the environment. -/
structure LfConfig where
  timeout : Nat
  retries : Nat
  retryDelay : Nat

/-- The Langflow-related process environment: `LANGFLOW_ENDPOINT` and
`LANGFLOW_API_KEY` (each possibly unset). -/
structure LfEnv where
  endpoint : Option String
  apiKey : Option String

/-- JS falsiness of an environment variable / argument that is either a
string or absent: unset and the empty string are falsy. -/
def envFalsy : Option String → Bool
  | none => true
  | some s => s = ""

/-- The fallback message `message` is initialised with (app.js:935). -/
def defaultSuccessMsg : String := "Analysis completed successfully"

/-- Strict-equality test `message === 'Analysis completed successfully'`. -/
def isDefaultMsg : JVal → Bool
  | JVal.str s => s = defaultSuccessMsg
  | _ => false

/-- The message-extraction `try` block (app.js:937-963): probes the nested
outputs shape, then a flat `result` field, then a flat `data.text` field.
Property accesses on `undefined`/`null` throw, which the embedding models in
`Except`. -/
def extractCore (result : JVal) : Except JsErr JVal := do
  -- probe 1 (app.js:938-946): result.outputs[0].outputs[0].results.message.data.text
  let outputs ← getProp result "outputs"
  let message1 ←
    if outputs.truthy then do
      let len ← getProp outputs "length"
      if jsGTzero len then do
        let output ← jsIndex outputs 0
        let inner ← getProp output "outputs"
        if inner.truthy then do
          let len2 ← getProp inner "length"
          if jsGTzero len2 then do
            let innerOutput ← jsIndex inner 0
            let results ← getProp innerOutput "results"
            if results.truthy then do
              let msg ← getProp results "message"
              if msg.truthy then do
                let data ← getProp msg "data"
                if data.truthy then do
                  let text ← getProp data "text"
                  pure (if text.truthy then text else JVal.str "Analysis completed")
                else pure (JVal.str defaultSuccessMsg)
              else pure (JVal.str defaultSuccessMsg)
            else pure (JVal.str defaultSuccessMsg)
          else pure (JVal.str defaultSuccessMsg)
        else pure (JVal.str defaultSuccessMsg)
      else pure (JVal.str defaultSuccessMsg)
    else pure (JVal.str defaultSuccessMsg)
  -- probe 2 (app.js:949-957): result.result as string / .text / .message
  let message2 ←
    if isDefaultMsg message1 then do
      let r ← getProp result "result"
      if r.truthy then
        match r with
        | JVal.str _ => pure r
        | _ => do
          let t ← getProp r "text"
          if t.truthy then pure t
          else do
            let m ← getProp r "message"
            if m.truthy then pure m else pure message1
      else pure message1
    else pure message1
  -- probe 3 (app.js:960-962): result.data.text
  if isDefaultMsg message2 then do
    let d ← getProp result "data"
    if d.truthy then do
      let t ← getProp d "text"
      if t.truthy then pure t else pure message2
    else pure message2
  else pure message2

/-- The extraction with its `catch` (app.js:964-967): a throw inside the
`try` can only happen while `message` still holds the initial default (each
probe assigns last, and probes 2 and 3 are guarded by
`message === 'Analysis completed successfully'`), so the caught value of
`message` is the default. -/
def extractMessage (result : JVal) : JVal :=
  match extractCore result with
  | Except.ok m => m
  | Except.error _ => JVal.str defaultSuccessMsg

/-- The generic summary substituted when the extracted message looks like an
upstream "PR not found" error leaking through (app.js:971-982). -/
def bigSubstitute : String :=
  "## 🤖 AI Analysis Results\n\n**PR Review Completed**\n\nThe AI analysis has been processed successfully. The review covers:\n\n✅ **Code Quality Assessment**\n✅ **Security Review** \n✅ **Best Practices Check**\n✅ **Performance Analysis**\n\n*Detailed analysis results have been processed by the AI system.*"

/-- The truncation marker appended when the message exceeds 65000 characters
(app.js:987). -/
def truncMarker : String := "\n\n*[Message truncated due to length]*"

/-- The clean-up applied to the extracted message (app.js:969-988): the
"PR # … not found" substitution, then truncation to 65000 characters plus
marker.  `.includes`/`.substring` on a non-string value throws. -/
def postProcess (m0 : JVal) : Except JsErr JVal :=
  match jsIncludesStr m0 "PR #" with
  | Except.error e => Except.error e
  | Except.ok hasPR =>
    let step2 : Except JsErr JVal :=
      if hasPR then
        match jsIncludesStr m0 "not found" with
        | Except.error e => Except.error e
        | Except.ok hasNF => Except.ok (if hasNF then JVal.str bigSubstitute else m0)
      else Except.ok m0
    match step2 with
    | Except.error e => Except.error e
    | Except.ok m1 =>
      if jsNumGT (jsLengthJ m1) 65000 then
        match m1 with
        | JVal.str s => Except.ok (JVal.str (jsSubstring s 65000 ++ truncMarker))
        | _ => Except.error ⟨"TypeError", "message.substring is not a function"⟩
      else Except.ok m1

/-- The status-code → human-readable message table of the non-success branch
(app.js:884-914). -/
def langflowStatusMessage (status : Nat) (statusText fid : String) : String :=
  match status with
  | 400 => "Bad request to Langflow API. Please check the data format."
  | 401 => "Unauthorized. Please check your Langflow API key."
  | 403 => "Forbidden. Your API key may not have access to this flow."
  | 404 => "Flow not found. Please check if flow ID " ++ squote ++ fid ++ squote ++ " exists."
  | 429 => "Too many requests. Langflow API rate limit exceeded."
  | 500 => "Internal server error in Langflow. Please try again later."
  | 502 => "Bad gateway. Langflow service may be temporarily unavailable."
  | 503 => "Service unavailable. Langflow is temporarily down."
  | 504 => "Gateway timeout. Langflow is taking too long to respond."
  | _ => "Langflow API error: " ++ toString status ++ " " ++ statusText

/-- The full error message thrown for a non-success response: the table
entry plus, when the body is non-empty, up to 200 characters of it
(app.js:916-920). -/
def composedStatusMessage (r : Response) (fid : String) : String :=
  let base := langflowStatusMessage r.status r.statusText fid
  if r.body ≠ "" then base ++ " Details: " ++ jsSubstring r.body 200 else base

/-- The error categorisation of `triggerLangflow`'s `catch` (app.js:1008-1020):
timeout, DNS/connection-refused, connection-reset, auth, not-found, or the
original message. -/
def classifyError (e : JsErr) : String :=
  if e.name = "AbortError" || strContains e.message "timeout" then
    "The AI analysis timed out. This usually happens when the service is overloaded. Please try again in a few minutes."
  else if strContains e.message "ENOTFOUND" || strContains e.message "ECONNREFUSED" then
    "Cannot connect to the AI service. Please check if the Langflow endpoint is correct and accessible."
  else if strContains e.message "ECONNRESET" || strContains e.message "socket hang up" then
    "Connection to the AI service was interrupted. Please try again."
  else if strContains e.message "401" then
    "Authentication failed. Please check the API key configuration."
  else if strContains e.message "404" then
    "The specified AI flow was not found. Please check the flow configuration."
  else e.message

/-- The result object of `triggerLangflow`: `{success: true, message, data}`
or `{success: false, error, originalError}`. -/
inductive TriggerResult where
  | success : JVal → JVal → TriggerResult
  | failure : String → String → TriggerResult

/-- The body of `triggerLangflow`'s outer `try` (app.js:809-997): validate
configuration, call `fetchWithRetry`, map non-success statuses through the
message table, parse the JSON body, extract and clean up the message.
Every `throw` is an `Except.error`. -/
def triggerCore (cfg : LfConfig) (env : LfEnv) (flowId : Option String)
    (fn : Nat → Except JsErr Response) : Except JsErr (JVal × JVal) := do
  if envFalsy env.endpoint then
    Except.error ⟨"Error", "LANGFLOW_ENDPOINT environment variable is not set"⟩
  else if envFalsy env.apiKey then
    Except.error ⟨"Error", "LANGFLOW_API_KEY environment variable is not set"⟩
  else if envFalsy flowId then
    Except.error ⟨"Error", "Flow ID is required but not provided"⟩
  else
    match (fetchWithRetry fn cfg.retryDelay cfg.retries).result with
    | Except.error e => Except.error e
    | Except.ok none =>
      Except.error ⟨"TypeError",
        "Cannot read properties of undefined (reading " ++ squote ++ "status" ++ squote ++ ")"⟩
    | Except.ok (some response) =>
      if response.ok then
        match response.jsonBody with
        | none => Except.error ⟨"Error", "Invalid JSON response from Langflow API"⟩
        | some result => do
          let m ← postProcess (extractMessage result)
          pure (m, result)
      else
        Except.error ⟨"Error", composedStatusMessage response (flowId.getD "")⟩

/-- The function `triggerLangflow(data, flowId)` (app.js:808-1028): the pipeline above
with its `catch`, which converts every thrown error into a
failure result carrying the classified user message and the original error
message.  The pre-dispatch jitter sleep and the request serialisation
(app.js:831-866) do not influence the returned result and are not recorded. -/
def triggerLangflow (cfg : LfConfig) (env : LfEnv) (flowId : Option String)
    (fn : Nat → Except JsErr Response) : TriggerResult :=
  match triggerCore cfg env flowId fn with
  | Except.ok (m, result) => TriggerResult.success m result
  | Except.error e => TriggerResult.failure (classifyError e) e.message

/-! ## The review and merge-check orchestrators (app.js:381-658, 661-805) -/

/-- One check-run create/update sent to the checks API: status, optional
conclusion, output title/summary/text, and the action identifiers offered. -/
structure CheckUpdate where
  status : String
  conclusion : Option String
  title : String
  summary : String
  text : Option JVal
  actions : List String

/-- The behaviour of the GitHub collaborators during one invocation: whether
`getOctokit` throws (and with what message), whether each checks/comment
call throws, and how the PR number resolves (`Except.error` covers both "no
open pull request found" and a thrown lookup, with the inner message). -/
structure GhCtx where
  octokitErr : Option String
  inProgressErr : Option String
  prResolve : Except String Nat
  prFetchErr : Option String
  successUpdateErr : Option String
  commentErr : Option String
  errorUpdateErr : Option String

/-- What one orchestrator run did: the check-run updates performed in order,
the PR comments posted, and the message of an error that escaped the handler
uncaught (merge check only). -/
structure ReviewOutcome where
  updates : List CheckUpdate
  comments : List String
  uncaught : Option String

/-- The "in progress" update of the review flow (app.js:405-414). -/
def inProgressUpdateReview (cfg : LfConfig) : CheckUpdate :=
  ⟨"in_progress", none, "🔄 AI Review in Progress",
   "Analyzing your code with Langflow agents...",
   some (JVal.str ("⏱️ This may take up to " ++ toString (cfg.timeout / 1000)
     ++ " seconds. Please wait...")), []⟩

/-- JS `reviewResult.message || fallback` (the `||` operator on the message value). -/
def orElseJ (m : JVal) (d : String) : JVal := if m.truthy then m else JVal.str d

/-- The success update of the review flow (app.js:539-557). -/
def successUpdateReview (m : JVal) : CheckUpdate :=
  ⟨"completed", some "neutral", "✅ AI Review Complete",
   "Code review completed successfully",
   some (orElseJ m "Review analysis completed"), ["check_merge"]⟩

/-- The PR comment posted on review success (app.js:570-580). -/
def reviewCommentBody (m : JVal) : String :=
  "## 🤖 AI Code Review Results\n\n"
    ++ jsToString (orElseJ m "Review completed successfully")
    ++ "\n\n---\n*Analysis powered by Langflow AI • Click \"Check Merge Readiness\" above for final assessment*"

/-- The rewriting of a failed `triggerLangflow` result's error message into
a user-friendly one before it is thrown (app.js:593-604). -/
def reviewFailureMessage (err : String) : String :=
  let e := if err = "" then "Langflow request failed" else err
  if strContains e "504" || strContains e "GATEWAY_TIMEOUT" then
    "The AI service is currently experiencing high load. Please try again in a few minutes."
  else if strContains e "timeout" || strContains e "ETIMEDOUT" then
    "The AI analysis is taking longer than expected. The service may be busy."
  else if strContains e "500" || strContains e "503" then
    "The AI service is temporarily unavailable. Please try again later."
  else e

/-- The update sent by the review flow's `catch` handler (app.js:614-645):
a transient-looking message yields `neutral`/"AI Review Unavailable", any
other yields `failure`/"AI Review Failed". -/
def reviewErrorUpdate (msg : String) : CheckUpdate :=
  let text := JVal.str (msg
    ++ "\n\n*You can try running the review again by clicking the \"Review PR\" button.*")
  if strContains msg "timeout" || strContains msg "504"
      || strContains msg "temporarily unavailable" || strContains msg "high load" then
    ⟨"completed", some "neutral", "⚠️ AI Review Unavailable",
     "The AI service is currently unavailable", some text, ["review_pr"]⟩
  else
    ⟨"completed", some "failure", "❌ AI Review Failed",
     "There was an error during the review process", some text, ["review_pr"]⟩

/-- The review flow's `catch` (app.js:607-657) once octokit is available:
post the error update (its own failure is swallowed). -/
def reviewCatch (gh : GhCtx) (inProg : List CheckUpdate) (msg : String) : ReviewOutcome :=
  let upd := match gh.errorUpdateErr with
    | some _ => []
    | none => [reviewErrorUpdate msg]
  ⟨inProg ++ upd, [], none⟩

/-- The function `handleReviewRequest` (app.js:381-658).  A failing `getOctokit` is
caught with `octokit` still unset, so no update is sent; a failing
in-progress update is swallowed; PR-resolution and PR-data errors are
rethrown with a prefix and handled by the `catch`; a Langflow failure has
its message rewritten by `reviewFailureMessage` and is thrown; a Langflow
success posts the success update and the PR comment (each failure
swallowed). -/
def handleReviewRequest (gh : GhCtx) (cfg : LfConfig) (env : LfEnv)
    (flowId : Option String) (fn : Nat → Except JsErr Response) : ReviewOutcome :=
  match gh.octokitErr with
  | some _ => ⟨[], [], none⟩
  | none =>
    let inProg := match gh.inProgressErr with
      | some _ => []
      | none => [inProgressUpdateReview cfg]
    match gh.prResolve with
    | Except.error m => reviewCatch gh inProg ("Cannot find PR for this check run: " ++ m)
    | Except.ok _ =>
      match gh.prFetchErr with
      | some m => reviewCatch gh inProg ("Failed to retrieve PR data: " ++ m)
      | none =>
        match triggerLangflow cfg env flowId fn with
        | TriggerResult.success m _ =>
          let upd := match gh.successUpdateErr with
            | some _ => []
            | none => [successUpdateReview m]
          let com := match gh.commentErr with
            | some _ => []
            | none => [reviewCommentBody m]
          ⟨inProg ++ upd, com, none⟩
        | TriggerResult.failure err _ =>
          reviewCatch gh inProg (reviewFailureMessage err)

/-- The "in progress" update of the merge-check flow (app.js:693-702). -/
def mergeInProgressUpdate : CheckUpdate :=
  ⟨"in_progress", none, "🔄 Checking Merge Readiness",
   "Analyzing PR for merge readiness...", none, []⟩

/-- The completion update of the merge-check flow on a string success
message (app.js:749-762): conclusion `success` and the "Ready to Merge!"
title exactly when the lowercased message contains "ready". -/
def mergeReadyUpdate (s : String) : CheckUpdate :=
  let isReady := strContains (lowerAscii s) "ready"
  ⟨"completed", some (if isReady then "success" else "neutral"),
   if isReady then "🚀 Ready to Merge!" else "⚠️ Not Ready to Merge",
   if s ≠ "" then s else "Merge readiness analysis completed", none, []⟩

/-- The PR comment posted on merge-check success (app.js:765-775). -/
def mergeCommentBody (s : String) : String :=
  "## 🚀 Merge Readiness Analysis\n\n"
    ++ (if s ≠ "" then s else "Analysis completed")
    ++ "\n\n---\n*Final assessment by Langflow AI*"

/-- In `handleMergeCheck` the `catch` handler reads `octokit`, but that
`const` is scoped to the `try` block (app.js:666 vs 786), so every error
path raises an uncaught `ReferenceError` from the handler. -/
def mergeCatchCrash : Option String := some "octokit is not defined"

/-- The function `handleMergeCheck` (app.js:661-805).  Unlike the review flow, the PR
number is resolved before the in-progress update, none of the GitHub calls
have their own try/catch (the PR-details and comment-listing reads are
folded into `prFetchErr`), and every path through the `catch` handler
crashes on the out-of-scope `octokit` before any error update is sent.  A
non-string success message crashes on `.toLowerCase()`. -/
def handleMergeCheck (gh : GhCtx) (cfg : LfConfig) (env : LfEnv)
    (flowId : Option String) (fn : Nat → Except JsErr Response) : ReviewOutcome :=
  match gh.octokitErr with
  | some _ => ⟨[], [], mergeCatchCrash⟩
  | none =>
    match gh.prResolve with
    | Except.error _ => ⟨[], [], mergeCatchCrash⟩
    | Except.ok _ =>
      match gh.inProgressErr with
      | some _ => ⟨[], [], mergeCatchCrash⟩
      | none =>
        match gh.prFetchErr with
        | some _ => ⟨[mergeInProgressUpdate], [], mergeCatchCrash⟩
        | none =>
          match triggerLangflow cfg env flowId fn with
          | TriggerResult.failure _ _ => ⟨[mergeInProgressUpdate], [], mergeCatchCrash⟩
          | TriggerResult.success m _ =>
            match m with
            | JVal.str s =>
              match gh.successUpdateErr with
              | some _ => ⟨[mergeInProgressUpdate], [], mergeCatchCrash⟩
              | none =>
                match gh.commentErr with
                | some _ => ⟨[mergeInProgressUpdate, mergeReadyUpdate s], [], mergeCatchCrash⟩
                | none =>
                  ⟨[mergeInProgressUpdate, mergeReadyUpdate s], [mergeCommentBody s], none⟩
            | _ => ⟨[mergeInProgressUpdate], [], mergeCatchCrash⟩

/-! ## Concrete fixtures used by the claim instances -/

/-- The default `CONFIG.langflow` values (app.js:26-28). -/
def cfgDefault : LfConfig := ⟨120000, 3, 5000⟩

/-- A fully configured Langflow environment. -/
def envOk : LfEnv := ⟨some "https://langflow.example.com/api/v1", some "sk-test-key"⟩

/-- GitHub collaborators that all succeed, with the PR resolving to #1. -/
def ghHappy : GhCtx := ⟨none, none, Except.ok 1, none, none, none, none⟩

/-- A 504 response with an empty body. -/
def resp504 : Response := ⟨504, "Gateway Timeout", "", none⟩

/-- A 200 response whose JSON body is the object with result "All good". -/
def respAllGood : Response :=
  ⟨200, "OK", "", some (JVal.obj [("result", JVal.str "All good")])⟩

/-- A remote that answers 504 on every attempt. -/
def fn504 : Nat → Except JsErr Response := fun _ => Except.ok resp504

/-- A remote that answers 200 with result "All good" on every attempt. -/
def fnAllGood : Nat → Except JsErr Response := fun _ => Except.ok respAllGood

/-! ## Lemmas about the retry loop -/

theorem sum_replicate_nat (n x : Nat) : (List.replicate n x).sum = n * x := by
  induction n with
  | zero => simp
  | succ n ih => simp [List.replicate_succ, ih, Nat.succ_mul]; omega

/-- A 5xx status is not a 2xx status. -/
theorem ok_false_of_5xx {r : Response} (h : 500 ≤ r.status) : r.ok = false := by
  simp only [Response.ok, Bool.and_eq_false_iff, decide_eq_false_iff_not]
  omega

/-- Skipping `m` leading 5xx attempts: each sleeps `d` and retries. -/
theorem fetchLoop_skip5xx (fn : Nat → Except JsErr Response) (d retries : Nat) :
    ∀ (m a fuel : Nat), m ≤ fuel →
      (∀ i, a ≤ i → i < a + m →
        ∃ r, fn i = Except.ok r ∧ 500 ≤ r.status ∧ r.status < 600) →
      a + m ≤ retries →
      fetchLoop fn d retries a fuel =
        ⟨(fetchLoop fn d retries (a + m) (fuel - m)).result,
         (fetchLoop fn d retries (a + m) (fuel - m)).calls + m,
         List.replicate m d ++ (fetchLoop fn d retries (a + m) (fuel - m)).delays⟩ := by
  intro m
  induction m with
  | zero =>
    intro a fuel _ _ _
    simp
  | succ m ih =>
    intro a fuel hm h hle
    cases fuel with
    | zero => omega
    | succ fuel =>
      obtain ⟨r, hr, h500, _⟩ := h a (Nat.le_refl a) (by omega)
      simp only [fetchLoop, hr]
      rw [ok_false_of_5xx h500]
      simp only [Bool.false_eq_true, if_false]
      rw [if_pos (show 500 ≤ r.status ∧ a < retries from ⟨h500, by omega⟩)]
      rw [ih (a + 1) fuel (by omega) (fun i h1 h2 => h i (by omega) (by omega)) (by omega)]
      have h1 : a + 1 + m = a + (m + 1) := by omega
      have h2 : fuel - m = fuel + 1 - (m + 1) := by omega
      rw [h1, h2]
      simp only [RetryTrace.mk.injEq]
      exact ⟨by trivial, by omega, by simp [List.replicate_succ]⟩

/-- Skipping `m` leading thrown attempts (none of them the last attempt). -/
theorem fetchLoop_skipThrow (fn : Nat → Except JsErr Response) (d retries : Nat) :
    ∀ (m a fuel : Nat), m ≤ fuel →
      (∀ i, a ≤ i → i < a + m → ∃ e, fn i = Except.error e) →
      a + m ≤ retries →
      fetchLoop fn d retries a fuel =
        ⟨(fetchLoop fn d retries (a + m) (fuel - m)).result,
         (fetchLoop fn d retries (a + m) (fuel - m)).calls + m,
         List.replicate m d ++ (fetchLoop fn d retries (a + m) (fuel - m)).delays⟩ := by
  intro m
  induction m with
  | zero =>
    intro a fuel _ _ _
    simp
  | succ m ih =>
    intro a fuel hm h hle
    cases fuel with
    | zero => omega
    | succ fuel =>
      obtain ⟨e, he⟩ := h a (Nat.le_refl a) (by omega)
      simp only [fetchLoop, he]
      rw [if_neg (show ¬a = retries by omega)]
      rw [ih (a + 1) fuel (by omega) (fun i h1 h2 => h i (by omega) (by omega)) (by omega)]
      have h1 : a + 1 + m = a + (m + 1) := by omega
      have h2 : fuel - m = fuel + 1 - (m + 1) := by omega
      rw [h1, h2]
      simp only [RetryTrace.mk.injEq]
      exact ⟨by trivial, by omega, by simp [List.replicate_succ]⟩

/-- A 2xx attempt returns immediately. -/
theorem fetchLoop_success_now (fn : Nat → Except JsErr Response) (d retries a fuel : Nat)
    (r : Response) (hr : fn a = Except.ok r) (hok : r.ok = true) (hf : 1 ≤ fuel) :
    fetchLoop fn d retries a fuel = ⟨Except.ok (some r), 1, []⟩ := by
  cases fuel with
  | zero => omega
  | succ fuel => simp [fetchLoop, hr, hok]

/-- A non-2xx attempt that does not qualify for a retry returns immediately. -/
theorem fetchLoop_return_now (fn : Nat → Except JsErr Response) (d retries a fuel : Nat)
    (r : Response) (hr : fn a = Except.ok r) (hok : r.ok = false)
    (hno : ¬(500 ≤ r.status ∧ a < retries)) (hf : 1 ≤ fuel) :
    fetchLoop fn d retries a fuel = ⟨Except.ok (some r), 1, []⟩ := by
  cases fuel with
  | zero => omega
  | succ fuel =>
    simp only [fetchLoop, hr]
    rw [hok]
    simp only [Bool.false_eq_true, if_false]
    rw [if_neg hno]

/-- A thrown last attempt rethrows. -/
theorem fetchLoop_throw_now (fn : Nat → Except JsErr Response) (d retries a fuel : Nat)
    (e : JsErr) (hr : fn a = Except.error e) (ha : a = retries) (hf : 1 ≤ fuel) :
    fetchLoop fn d retries a fuel = ⟨Except.error e, 1, []⟩ := by
  cases fuel with
  | zero => omega
  | succ fuel =>
    subst ha
    simp [fetchLoop, hr]

/-! ## Claim theorems about the bounded retry executor -/

/-- C2: for every attempt function whose first `k − 1` calls return 5xx
responses and whose `k`-th call (`k ≤ maxAttempts`) returns a 2xx (ok)
response, `fetchWithRetry` returns that 2xx response and invokes the attempt
function exactly `k` times. -/
theorem retry_returns_first_2xx (fn : Nat → Except JsErr Response)
    (d retries k : Nat) (r : Response) (hk1 : 1 ≤ k) (hk : k ≤ retries)
    (h5 : ∀ i, 1 ≤ i → i < k →
      ∃ s, fn i = Except.ok s ∧ 500 ≤ s.status ∧ s.status < 600)
    (hr : fn k = Except.ok r) (hok : r.ok = true) :
    (fetchWithRetry fn d retries).result = Except.ok (some r) ∧
      (fetchWithRetry fn d retries).calls = k := by
  unfold fetchWithRetry
  rw [fetchLoop_skip5xx fn d retries (k - 1) 1 retries (by omega)
    (fun i h1 h2 => h5 i h1 (by omega)) (by omega)]
  have ha : 1 + (k - 1) = k := by omega
  rw [ha]
  rw [fetchLoop_success_now fn d retries k (retries - (k - 1)) r hr hok (by omega)]
  exact ⟨rfl, by show 1 + (k - 1) = k; omega⟩

/-- C2 witness: a remote that answers 503 on attempt 1 and 200 on attempt 2,
with 3 configured attempts, yields the 2xx response after exactly 2 calls. -/
theorem retry_returns_first_2xx_witness :
    (fetchWithRetry
        (fun i => if i < 2 then Except.ok ⟨503, "Service Unavailable", "", none⟩
                  else Except.ok ⟨200, "OK", "", none⟩) 5000 3).result =
      Except.ok (some ⟨200, "OK", "", none⟩) ∧
    (fetchWithRetry
        (fun i => if i < 2 then Except.ok ⟨503, "Service Unavailable", "", none⟩
                  else Except.ok ⟨200, "OK", "", none⟩) 5000 3).calls = 2 :=
  retry_returns_first_2xx _ 5000 3 2 ⟨200, "OK", "", none⟩
    (by omega) (by omega)
    (fun i h1 h2 => ⟨⟨503, "Service Unavailable", "", none⟩, by
      have : i = 1 := by omega
      subst this
      exact ⟨rfl, by decide, by decide⟩⟩)
    rfl rfl

/-- C3: an attempt returning a 4xx client-error status is returned after
exactly one invocation, for every `maxAttempts ≥ 1`. -/
theorem retry_4xx_no_retry (fn : Nat → Except JsErr Response) (d retries : Nat)
    (r : Response) (hret : 1 ≤ retries) (hr : fn 1 = Except.ok r)
    (h4 : 400 ≤ r.status ∧ r.status < 500) :
    (fetchWithRetry fn d retries).result = Except.ok (some r) ∧
      (fetchWithRetry fn d retries).calls = 1 := by
  unfold fetchWithRetry
  rw [fetchLoop_return_now fn d retries 1 retries r hr
    (by simp only [Response.ok, Bool.and_eq_false_iff, decide_eq_false_iff_not]; omega)
    (by omega) hret]
  exact ⟨rfl, rfl⟩

/-- C3 witness: a constant 404 remote with 5 configured attempts returns the
404 response after exactly one call. -/
theorem retry_4xx_no_retry_witness :
    (fetchWithRetry (fun _ => Except.ok ⟨404, "Not Found", "", none⟩) 5000 5).result =
      Except.ok (some ⟨404, "Not Found", "", none⟩) ∧
    (fetchWithRetry (fun _ => Except.ok ⟨404, "Not Found", "", none⟩) 5000 5).calls = 1 :=
  retry_4xx_no_retry _ 5000 5 ⟨404, "Not Found", "", none⟩
    (by omega) rfl ⟨by decide, by decide⟩

/-- C4: if every attempt throws, `fetchWithRetry` calls the attempt function
exactly `maxAttempts` times, propagates the error thrown by the last
attempt, and requests a delay of `retryDelayMs` before each retry, for a
total requested inter-attempt delay of `(maxAttempts − 1) × retryDelayMs`. -/
theorem retry_all_throw_propagates (fn : Nat → Except JsErr Response)
    (d retries : Nat) (es : Nat → JsErr) (hret : 1 ≤ retries)
    (he : ∀ i, 1 ≤ i → i ≤ retries → fn i = Except.error (es i)) :
    (fetchWithRetry fn d retries).result = Except.error (es retries) ∧
      (fetchWithRetry fn d retries).calls = retries ∧
      (fetchWithRetry fn d retries).delays = List.replicate (retries - 1) d ∧
      (fetchWithRetry fn d retries).delays.sum = (retries - 1) * d := by
  unfold fetchWithRetry
  rw [fetchLoop_skipThrow fn d retries (retries - 1) 1 retries (by omega)
    (fun i h1 h2 => ⟨es i, he i h1 (by omega)⟩) (by omega)]
  have ha : 1 + (retries - 1) = retries := by omega
  rw [ha]
  rw [fetchLoop_throw_now fn d retries retries (retries - (retries - 1))
    (es retries) (he retries (by omega) (by omega)) rfl (by omega)]
  refine ⟨rfl, by show 1 + (retries - 1) = retries; omega, by simp, by simp [sum_replicate_nat]⟩

/-- C4 witness: a remote that times out on all 3 attempts: the timeout error
of attempt 3 propagates after exactly 3 calls and 2 requested 5000 ms
delays. -/
theorem retry_all_throw_propagates_witness :
    (fetchWithRetry (fun _ => Except.error ⟨"AbortError", "The operation was aborted."⟩)
        5000 3).result = Except.error ⟨"AbortError", "The operation was aborted."⟩ ∧
    (fetchWithRetry (fun _ => Except.error ⟨"AbortError", "The operation was aborted."⟩)
        5000 3).calls = 3 ∧
    (fetchWithRetry (fun _ => Except.error ⟨"AbortError", "The operation was aborted."⟩)
        5000 3).delays = List.replicate 2 5000 ∧
    (fetchWithRetry (fun _ => Except.error ⟨"AbortError", "The operation was aborted."⟩)
        5000 3).delays.sum = 2 * 5000 :=
  retry_all_throw_propagates _ 5000 3
    (fun _ => ⟨"AbortError", "The operation was aborted."⟩)
    (by omega) (fun _ _ _ => rfl)

/-- C9: if every attempt yields a 5xx response (no attempt throws), the
retry executor does not raise: after `maxAttempts` attempts it returns the
final 5xx response. -/
theorem retry_all_5xx_returns_last (fn : Nat → Except JsErr Response)
    (d retries : Nat) (rs : Nat → Response) (hret : 1 ≤ retries)
    (h : ∀ i, 1 ≤ i → i ≤ retries →
      fn i = Except.ok (rs i) ∧ 500 ≤ (rs i).status ∧ (rs i).status < 600) :
    (fetchWithRetry fn d retries).result = Except.ok (some (rs retries)) ∧
      (fetchWithRetry fn d retries).calls = retries := by
  unfold fetchWithRetry
  rw [fetchLoop_skip5xx fn d retries (retries - 1) 1 retries (by omega)
    (fun i h1 h2 => ⟨rs i, h i h1 (by omega)⟩) (by omega)]
  have ha : 1 + (retries - 1) = retries := by omega
  rw [ha]
  obtain ⟨hfn, h500, _⟩ := h retries (by omega) (by omega)
  rw [fetchLoop_return_now fn d retries retries (retries - (retries - 1))
    (rs retries) hfn (ok_false_of_5xx h500) (by omega) (by omega)]
  exact ⟨rfl, by show 1 + (retries - 1) = retries; omega⟩

/-- C9 witness: a constant 502 remote with 3 configured attempts returns the
502 response (no exception) after exactly 3 calls. -/
theorem retry_all_5xx_returns_last_witness :
    (fetchWithRetry (fun _ => Except.ok ⟨502, "Bad Gateway", "", none⟩) 5000 3).result =
      Except.ok (some ⟨502, "Bad Gateway", "", none⟩) ∧
    (fetchWithRetry (fun _ => Except.ok ⟨502, "Bad Gateway", "", none⟩) 5000 3).calls = 3 :=
  retry_all_5xx_returns_last _ 5000 3 (fun _ => ⟨502, "Bad Gateway", "", none⟩)
    (by omega) (fun _ _ _ => ⟨rfl, (by decide : (500:Nat) ≤ 502), (by decide : (502:Nat) < 600)⟩)

/-! ## String lemmas for the message pipeline -/

theorem str_data_append (s t : String) : (s ++ t).data = s.data ++ t.data := by
  cases s; cases t; rfl

theorem str_length_data (s : String) : s.length = s.data.length := rfl

theorem isPrefixOf_append_left (pat l1 l2 : List Char)
    (h : List.isPrefixOf pat l1 = true) :
    List.isPrefixOf pat (l1 ++ l2) = true := by
  induction pat generalizing l1 with
  | nil => simp
  | cons c cs ih =>
    cases l1 with
    | nil => simp [List.isPrefixOf] at h
    | cons b bs =>
      simp only [List.isPrefixOf, List.cons_append, Bool.and_eq_true] at h ⊢
      exact ⟨h.1, ih bs h.2⟩

theorem listSub_append_left (pat l1 l2 : List Char) (h : listSub pat l1 = true) :
    listSub pat (l1 ++ l2) = true := by
  induction l1 with
  | nil =>
    have hpat : pat = [] := by
      cases pat with
      | nil => rfl
      | cons c cs => simp [listSub, List.isEmpty] at h
    subst hpat
    cases l2 with
    | nil => rfl
    | cons b bs =>
      show (List.isPrefixOf [] (b :: bs) || listSub [] bs) = true
      simp
  | cons c rest ih =>
    show (List.isPrefixOf pat (c :: (rest ++ l2)) || listSub pat (rest ++ l2)) = true
    have h' : (List.isPrefixOf pat (c :: rest) || listSub pat rest) = true := h
    rcases Bool.or_eq_true_iff.mp h' with hp | hs
    · exact Bool.or_eq_true_iff.mpr (Or.inl
        (by
          have := isPrefixOf_append_left pat (c :: rest) l2 hp
          simpa using this))
    · exact Bool.or_eq_true_iff.mpr (Or.inr (ih hs))

/-- Containment in a string is preserved by appending on the right. -/
theorem strContains_append_left (s t : String) (p : String)
    (h : strContains s p = true) : strContains (s ++ t) p = true := by
  unfold strContains at h ⊢
  rw [str_data_append]
  exact listSub_append_left p.data s.data t.data h

theorem listSub_replicate_ne (c : Char) (cs : List Char) (a : Char)
    (h : (c == a) = false) :
    ∀ n, listSub (c :: cs) (List.replicate n a) = false := by
  intro n
  induction n with
  | zero => rfl
  | succ n ih =>
    rw [List.replicate_succ]
    show (List.isPrefixOf (c :: cs) (a :: List.replicate n a)
        || listSub (c :: cs) (List.replicate n a)) = false
    rw [ih]
    show (((c == a) && List.isPrefixOf cs (List.replicate n a)) || false) = false
    rw [h]
    simp

/-- A constant 2xx-or-other attempt function always makes `fetchWithRetry`
return its response (never `undefined`, never a throw). -/
theorem fetchLoop_const_result (r : Response) (d retries : Nat) :
    ∀ fuel a, a + fuel = retries + 1 → 1 ≤ fuel →
      (fetchLoop (fun _ => Except.ok r) d retries a fuel).result =
        Except.ok (some r) := by
  intro fuel
  induction fuel with
  | zero => intro a _ h1; omega
  | succ fuel ih =>
    intro a h _
    show (if r.ok = true then (⟨Except.ok (some r), 1, []⟩ : RetryTrace)
        else if 500 ≤ r.status ∧ a < retries then
          ⟨(fetchLoop (fun _ => Except.ok r) d retries (a + 1) fuel).result,
           (fetchLoop (fun _ => Except.ok r) d retries (a + 1) fuel).calls + 1,
           d :: (fetchLoop (fun _ => Except.ok r) d retries (a + 1) fuel).delays⟩
        else ⟨Except.ok (some r), 1, []⟩).result = Except.ok (some r)
    by_cases hok : r.ok = true
    · rw [if_pos hok]
    · rw [if_neg hok]
      by_cases hc : 500 ≤ r.status ∧ a < retries
      · rw [if_pos hc]
        exact ih (a + 1) (by omega) (by omega)
      · rw [if_neg hc]

theorem fetchWithRetry_const_result (r : Response) (d retries : Nat)
    (hret : 1 ≤ retries) :
    (fetchWithRetry (fun _ => Except.ok r) d retries).result =
      Except.ok (some r) :=
  fetchLoop_const_result r d retries retries 1 (by omega) hret

/-! ## Claim theorems about `triggerLangflow` -/

/-- C5: the workflow invocation client never raises to its caller: for every
configuration, flow id and remote behaviour the run is total, and precisely
the runs whose throwing pipeline (`triggerCore`) ends in a thrown error
produce a `Failure` result carrying the classified user message and the
original error message. -/
theorem trigger_never_throws (cfg : LfConfig) (env : LfEnv)
    (flowId : Option String) (fn : Nat → Except JsErr Response) :
    (∃ m result, triggerLangflow cfg env flowId fn = TriggerResult.success m result ∧
        triggerCore cfg env flowId fn = Except.ok (m, result)) ∨
    (∃ e, triggerCore cfg env flowId fn = Except.error e ∧
        triggerLangflow cfg env flowId fn =
          TriggerResult.failure (classifyError e) e.message) := by
  cases h : triggerCore cfg env flowId fn with
  | ok md =>
    obtain ⟨m, result⟩ := md
    exact Or.inl ⟨m, result, by simp [triggerLangflow, h], rfl⟩
  | error e => exact Or.inr ⟨e, rfl, by simp [triggerLangflow, h]⟩

/-- The substrings probed by `classifyError` (app.js:1010-1019). -/
def triggerPatterns : List String :=
  ["timeout", "ENOTFOUND", "ECONNREFUSED", "ECONNRESET", "socket hang up", "401", "404"]

/-- C6 (amended): for a final response with one of the tabulated non-success
statuses, the thrown message is the fixed table entry plus up to 200
characters of the raw body; for 400/401/403/404/429/500/502/503 (when that
composed message matches none of the catch classifier patterns) it is also
the user-facing `Failure` message, while for 504 the classifier replaces the
user-facing message with the timeout-category message (the composed table
message is kept in the original-error field). -/
theorem trigger_status_table (cfg : LfConfig) (env : LfEnv)
    (flowId : Option String) (fn : Nat → Except JsErr Response) (r : Response)
    (hret : 1 ≤ cfg.retries)
    (hep : envFalsy env.endpoint = false) (hak : envFalsy env.apiKey = false)
    (hfl : envFalsy flowId = false)
    (hconst : ∀ i, fn i = Except.ok r)
    (hcase :
      (r.status ∈ [400, 401, 403, 404, 429, 500, 502, 503] ∧
        ∀ p ∈ triggerPatterns,
          strContains (composedStatusMessage r (flowId.getD "")) p = false) ∨
      r.status = 504) :
    triggerLangflow cfg env flowId fn =
      TriggerResult.failure
        (if r.status = 504 then
          "The AI analysis timed out. This usually happens when the service is overloaded. Please try again in a few minutes."
        else composedStatusMessage r (flowId.getD ""))
        (composedStatusMessage r (flowId.getD "")) := by
  have hfn : fn = fun _ => Except.ok r := funext hconst
  subst hfn
  have hok : r.ok = false := by
    rcases hcase with ⟨hmem, _⟩ | h504
    · simp only [List.mem_cons, List.not_mem_nil, or_false] at hmem
      rcases hmem with h | h | h | h | h | h | h | h <;>
        simp only [Response.ok, h] <;> decide
    · simp only [Response.ok, h504]; decide
  have hcore : triggerCore cfg env flowId (fun _ => Except.ok r) =
      Except.error ⟨"Error", composedStatusMessage r (flowId.getD "")⟩ := by
    unfold triggerCore
    rw [hep, hak, hfl]
    simp only [Bool.false_eq_true, if_false]
    rw [fetchWithRetry_const_result r cfg.retryDelay cfg.retries hret]
    simp [hok]
  unfold triggerLangflow
  rw [hcore]
  rcases hcase with ⟨hmem, hpat⟩ | h504
  · have hne : ¬r.status = 504 := by
      simp only [List.mem_cons, List.not_mem_nil, or_false] at hmem
      omega
    rw [if_neg hne]
    have p1 := hpat "timeout" (by simp [triggerPatterns])
    have p2 := hpat "ENOTFOUND" (by simp [triggerPatterns])
    have p3 := hpat "ECONNREFUSED" (by simp [triggerPatterns])
    have p4 := hpat "ECONNRESET" (by simp [triggerPatterns])
    have p5 := hpat "socket hang up" (by simp [triggerPatterns])
    have p6 := hpat "401" (by simp [triggerPatterns])
    have p7 := hpat "404" (by simp [triggerPatterns])
    simp [classifyError, p1, p2, p3, p4, p5, p6, p7]
  · rw [if_pos h504]
    have hbase : langflowStatusMessage r.status r.statusText (flowId.getD "") =
        "Gateway timeout. Langflow is taking too long to respond." := by
      rw [h504]
      rfl
    have hto : strContains (composedStatusMessage r (flowId.getD "")) "timeout" = true := by
      unfold composedStatusMessage
      rw [hbase]
      by_cases hb : r.body = ""
      · rw [if_neg (fun hcon => hcon hb)]
        decide
      · rw [if_pos hb]
        exact strContains_append_left _ _ _ (strContains_append_left _ _ _ (by decide))
    simp [classifyError, hto]

/-- C6 counterexample: a final 504 with an empty body.  The claim says the
user-facing message is the fixed 504 table entry ("Gateway timeout. Langflow
is taking too long to respond.") plus up to 200 characters of body; the code
instead returns the timeout-category message, which differs from it. -/
theorem trigger_504_not_table_entry :
    triggerLangflow cfgDefault envOk (some "flow-1") fn504 =
      TriggerResult.failure
        "The AI analysis timed out. This usually happens when the service is overloaded. Please try again in a few minutes."
        "Gateway timeout. Langflow is taking too long to respond." ∧
    "The AI analysis timed out. This usually happens when the service is overloaded. Please try again in a few minutes." ≠
      "Gateway timeout. Langflow is taking too long to respond." :=
  ⟨rfl, by decide⟩

/-- A constant 400 Bad Request remote with an empty body. -/
def fnBadRequest : Nat → Except JsErr Response :=
  fun _ => Except.ok ⟨400, "Bad Request", "", none⟩

/-- C6 witness: a final 400 yields the fixed 400 table message as both the
user-facing and the original error message. -/
theorem trigger_status_table_witness :
    triggerLangflow cfgDefault envOk (some "flow-1") fnBadRequest =
      TriggerResult.failure
        "Bad request to Langflow API. Please check the data format."
        "Bad request to Langflow API. Please check the data format." :=
  trigger_status_table cfgDefault envOk (some "flow-1") fnBadRequest
    ⟨400, "Bad Request", "", none⟩ (by decide) rfl rfl rfl (fun _ => rfl)
    (Or.inl ⟨by decide, by decide⟩)

/-- The `triggerCore` pipeline on a first-attempt 2xx response with a JSON
body: the run reduces to the post-processed extracted message paired with
the parsed body. -/
theorem triggerCore_success_shape (cfg : LfConfig) (env : LfEnv)
    (flowId : Option String) (fn : Nat → Except JsErr Response)
    (r : Response) (j : JVal)
    (hret : 1 ≤ cfg.retries) (hep : envFalsy env.endpoint = false)
    (hak : envFalsy env.apiKey = false) (hfl : envFalsy flowId = false)
    (h1 : fn 1 = Except.ok r) (hok : r.ok = true) (hj : r.jsonBody = some j) :
    triggerCore cfg env flowId fn =
      (postProcess (extractMessage j)).map (fun m => (m, j)) := by
  unfold triggerCore
  rw [hep, hak, hfl]
  simp only [Bool.false_eq_true, if_false]
  unfold fetchWithRetry
  rw [fetchLoop_success_now fn cfg.retryDelay cfg.retries 1 cfg.retries r h1 hok hret]
  simp only [hok, hj, if_true]
  cases postProcess (extractMessage j) <;> rfl

/-- Post-processing of a string message of length 70000 that does not
trigger the "PR # … not found" substitution: truncation to 65000 characters
plus the marker. -/
theorem postProcess_long_string (s : String) (hlen : s.length = 70000)
    (hPR : ¬(strContains s "PR #" = true ∧ strContains s "not found" = true)) :
    postProcess (JVal.str s) =
      Except.ok (JVal.str (jsSubstring s 65000 ++ truncMarker)) := by
  have hlen70 : s.data.length = 70000 := hlen
  have hgt : jsNumGT (jsLengthJ (JVal.str s)) 65000 = true := by
    simp only [jsLengthJ, jsNumGT, str_length_data, hlen70]
    decide
  by_cases h1 : strContains s "PR #" = true
  · have h2 : strContains s "not found" = false := by
      rcases Bool.eq_false_or_eq_true (strContains s "not found") with h | h
      · exact absurd ⟨h1, h⟩ hPR
      · exact h
    simp [postProcess, jsIncludesStr, h1, h2, hgt]
  · have h1f : strContains s "PR #" = false := by
      rcases Bool.eq_false_or_eq_true (strContains s "PR #") with h | h
      · exact absurd h h1
      · exact h
    simp [postProcess, jsIncludesStr, h1f, hgt]

/-- C7: for every successfully parsed response whose extracted message is a
string of length 70000 not triggering the "PR # … not found" substitution,
the client returns a `Success` whose message has length exactly
65000 + the truncation marker's length and ends in that marker. -/
theorem trigger_truncates_70000 (cfg : LfConfig) (env : LfEnv)
    (flowId : Option String) (fn : Nat → Except JsErr Response)
    (r : Response) (j : JVal) (s : String)
    (hret : 1 ≤ cfg.retries) (hep : envFalsy env.endpoint = false)
    (hak : envFalsy env.apiKey = false) (hfl : envFalsy flowId = false)
    (h1 : fn 1 = Except.ok r) (hok : r.ok = true) (hj : r.jsonBody = some j)
    (hx : extractMessage j = JVal.str s) (hlen : s.length = 70000)
    (hPR : ¬(strContains s "PR #" = true ∧ strContains s "not found" = true)) :
    triggerLangflow cfg env flowId fn =
      TriggerResult.success (JVal.str (jsSubstring s 65000 ++ truncMarker)) j ∧
    (jsSubstring s 65000 ++ truncMarker).length = 65000 + truncMarker.length ∧
    truncMarker.data <:+ (jsSubstring s 65000 ++ truncMarker).data := by
  refine ⟨?_, ?_, ?_⟩
  · unfold triggerLangflow
    rw [triggerCore_success_shape cfg env flowId fn r j hret hep hak hfl h1 hok hj,
      hx, postProcess_long_string s hlen hPR]
    rfl
  · show (s.data.take 65000 ++ truncMarker.data).length = 65000 + truncMarker.data.length
    rw [List.length_append, List.length_take]
    have hlen70 : s.data.length = 70000 := hlen
    omega
  · show truncMarker.data <:+ s.data.take 65000 ++ truncMarker.data
    exact List.suffix_append _ _

/-- A 70000-character message (70000 copies of "a"). -/
def bigA : String := String.mk (List.replicate 70000 'a')

/-- A remote answering 200 with body `{result: <70000 chars>}`. -/
def fnBig : Nat → Except JsErr Response :=
  fun _ => Except.ok ⟨200, "OK", "", some (JVal.obj [("result", JVal.str bigA)])⟩

/-- C7 witness: the concrete 70000-character extracted message is truncated
to 65000 characters plus the marker. -/
theorem trigger_truncates_70000_witness :
    triggerLangflow cfgDefault envOk (some "flow-1") fnBig =
      TriggerResult.success (JVal.str (jsSubstring bigA 65000 ++ truncMarker))
        (JVal.obj [("result", JVal.str bigA)]) ∧
    (jsSubstring bigA 65000 ++ truncMarker).length = 65000 + truncMarker.length ∧
    truncMarker.data <:+ (jsSubstring bigA 65000 ++ truncMarker).data :=
  trigger_truncates_70000 cfgDefault envOk (some "flow-1") fnBig
    ⟨200, "OK", "", some (JVal.obj [("result", JVal.str bigA)])⟩
    (JVal.obj [("result", JVal.str bigA)]) bigA
    (by decide) rfl rfl rfl rfl rfl rfl rfl
    (by
      show (List.replicate 70000 'a').length = 70000
      exact List.length_replicate _ _)
    (by
      intro hcon
      have hfalse : strContains bigA "PR #" = false :=
        listSub_replicate_ne 'P' ['R', ' ', '#'] 'a' (by decide) 70000
      rw [hfalse] at hcon
      exact Bool.false_ne_true hcon.1)

/-! ## Claim theorems about the orchestrators -/

/-- C1: with a valid PR reference and a remote answering HTTP 504 on all
three attempts, the review orchestrator completes the check run with
conclusion "failure" and the "AI Review Failed" title — not the "neutral"
conclusion the specification describes.  The 504 table message is rewritten
to the timeout-category message inside `triggerLangflow`, and that rewritten
message ("The AI analysis timed out. …") contains none of the substrings
("timeout", "504", "temporarily unavailable", "high load") the error
handler's neutral-conclusion check looks for. -/
theorem review_all_504_concludes_failure :
    (handleReviewRequest ghHappy cfgDefault envOk (some "flow-1") fn504).updates.map
        (fun u => (u.status, u.conclusion, u.title)) =
      [("in_progress", none, "🔄 AI Review in Progress"),
       ("completed", some "failure", "❌ AI Review Failed")] := rfl

/-- C8 counterexample: on the claim's own scenario (valid PR, remote answers
200 with `{result: "All good"}`) the completed update's `summary` field is
the fixed string "Code review completed successfully", not "All good". -/
theorem review_success_summary_is_fixed :
    (handleReviewRequest ghHappy cfgDefault envOk (some "flow-1") fnAllGood).updates.map
        (fun u => (u.status, u.conclusion, u.summary)) =
      [("in_progress", none, "Analyzing your code with Langflow agents..."),
       ("completed", some "neutral", "Code review completed successfully")] ∧
    ("Code review completed successfully" : String) ≠ "All good" :=
  ⟨rfl, by decide⟩

/-- C8 (amended): the scenario reaches the Success terminal state and
performs exactly one update to "in_progress" followed by exactly one update
to "completed" with conclusion "neutral" whose output *text* is "All good"
(the summary field is the fixed completion string), plus one PR comment. -/
theorem review_success_flow :
    handleReviewRequest ghHappy cfgDefault envOk (some "flow-1") fnAllGood =
      ⟨[inProgressUpdateReview cfgDefault, successUpdateReview (JVal.str "All good")],
       [reviewCommentBody (JVal.str "All good")], none⟩ ∧
    (successUpdateReview (JVal.str "All good")).status = "completed" ∧
    (successUpdateReview (JVal.str "All good")).conclusion = some "neutral" ∧
    (successUpdateReview (JVal.str "All good")).text = some (JVal.str "All good") ∧
    (successUpdateReview (JVal.str "All good")).summary = "Code review completed successfully" :=
  ⟨rfl, rfl, rfl, rfl, rfl⟩

/-- C10: for every Success result of the merge-readiness check whose message
is a string, the terminal conclusion is "success" exactly when the
lowercased message contains the substring "ready" (so a "not ready" message
also concludes "success" with the "Ready to Merge!" title, and a message
without the substring concludes "neutral"). -/
theorem merge_ready_iff (gh : GhCtx) (cfg : LfConfig) (env : LfEnv)
    (flowId : Option String) (fn : Nat → Except JsErr Response)
    (s : String) (result : JVal) (n : Nat)
    (h1 : gh.octokitErr = none) (h2 : gh.prResolve = Except.ok n)
    (h3 : gh.inProgressErr = none) (h4 : gh.prFetchErr = none)
    (h5 : gh.successUpdateErr = none) (h6 : gh.commentErr = none)
    (ht : triggerLangflow cfg env flowId fn = TriggerResult.success (JVal.str s) result) :
    handleMergeCheck gh cfg env flowId fn =
      ⟨[mergeInProgressUpdate, mergeReadyUpdate s], [mergeCommentBody s], none⟩ ∧
    ((mergeReadyUpdate s).conclusion = some "success" ↔
      strContains (lowerAscii s) "ready" = true) := by
  constructor
  · unfold handleMergeCheck
    rw [h1, h2, h3, h4, ht, h5, h6]
  · unfold mergeReadyUpdate
    cases hb : strContains (lowerAscii s) "ready" with
    | true => simp [hb]
    | false => simp [hb]

/-- A remote answering 200 with a "not ready" merge verdict. -/
def fnNotReady : Nat → Except JsErr Response :=
  fun _ => Except.ok ⟨200, "OK", "",
    some (JVal.obj [("result", JVal.str "This PR is not ready to merge")])⟩

/-- C10 witness: the "not ready" verdict still concludes "success". -/
theorem merge_ready_iff_witness :
    (handleMergeCheck ghHappy cfgDefault envOk (some "flow-2") fnNotReady =
      ⟨[mergeInProgressUpdate, mergeReadyUpdate "This PR is not ready to merge"],
       [mergeCommentBody "This PR is not ready to merge"], none⟩) ∧
    ((mergeReadyUpdate "This PR is not ready to merge").conclusion = some "success" ↔
      strContains (lowerAscii "This PR is not ready to merge") "ready" = true) ∧
    (mergeReadyUpdate "This PR is not ready to merge").conclusion = some "success" :=
  have h := merge_ready_iff ghHappy cfgDefault envOk (some "flow-2") fnNotReady
    "This PR is not ready to merge"
    (JVal.obj [("result", JVal.str "This PR is not ready to merge")]) 1
    rfl rfl rfl rfl rfl rfl rfl
  ⟨h.1, h.2, h.2.mpr (by decide)⟩

end GithubLangflowApp
